import Mathlib

/-!
Shallow embedding of the learn-wgpu renderer core (`src/state.rs`,
`src/vertex.rs`): the surface/swapchain configuration, the resize and
keyboard-input handlers, pipeline-variant selection, and the per-frame
render command stream, together with theorems about them.
-/

set_option linter.unusedVariables false

/-- Texture formats that can appear in a surface capability list
(abstraction of `wgpu::TextureFormat`): each carries an sRGB flag. -/
inductive TextureFormat where
  | Rgba8Unorm
  | Rgba8UnormSrgb
  | Bgra8Unorm
  | Bgra8UnormSrgb
  deriving DecidableEq, Repr

/-- `wgpu::TextureFormat::is_srgb`. -/
def TextureFormat.is_srgb : TextureFormat → Bool
  | .Rgba8UnormSrgb => true
  | .Bgra8UnormSrgb => true
  | _ => false

/-- `wgpu::PresentMode`. -/
inductive PresentMode where
  | Fifo
  | FifoRelaxed
  | Immediate
  | Mailbox
  deriving DecidableEq, Repr

/-- `wgpu::CompositeAlphaMode`. -/
inductive CompositeAlphaMode where
  | Auto
  | Opaque
  | PreMultiplied
  | PostMultiplied
  | Inherit
  deriving DecidableEq, Repr

/-- `wgpu::TextureUsages` modelled as a bit set (`RENDER_ATTACHMENT` is
bit 4 in wgpu). -/
def TextureUsages.RENDER_ATTACHMENT : Nat := 16

/-- `winit::dpi::PhysicalSize<u32>`; u32 values represented as `Nat`
(no arithmetic is performed on them, so no wraparound can occur). -/
structure PhysicalSize where
  width : Nat
  height : Nat
  deriving DecidableEq, Repr

/-- `wgpu::SurfaceConfiguration` as built in `State::new`
(state.rs lines 95-104). -/
structure SurfaceConfiguration where
  usage : Nat
  format : TextureFormat
  width : Nat
  height : Nat
  present_mode : PresentMode
  alpha_mode : CompositeAlphaMode
  desired_maximum_frame_latency : Nat
  deriving DecidableEq, Repr

/-- `wgpu::SurfaceCapabilities`: the lists returned by
`surface.get_capabilities(&adapter)`. -/
structure SurfaceCapabilities where
  formats : List TextureFormat
  present_modes : List PresentMode
  alpha_modes : List CompositeAlphaMode
  deriving DecidableEq, Repr

/-- `wgpu::VertexFormat` (only the formats used by `Vertex::desc`). -/
inductive VertexFormat where
  | Float32x2
  | Float32x3
  deriving DecidableEq, Repr

/-- `wgpu::VertexStepMode`. -/
inductive VertexStepMode where
  | Vertex
  | Instance
  deriving DecidableEq, Repr

/-- `wgpu::VertexAttribute`. -/
structure VertexAttribute where
  offset : Nat
  shader_location : Nat
  format : VertexFormat
  deriving DecidableEq, Repr

/-- `wgpu::VertexBufferLayout`. -/
structure VertexBufferLayout where
  array_stride : Nat
  step_mode : VertexStepMode
  attributes : List VertexAttribute
  deriving DecidableEq, Repr

/-- `Vertex` from vertex.rs: position (3 floats) and texture
coordinates (2 floats). -/
structure Vertex where
  position : Float × Float × Float
  tex_coords : Float × Float

/-- The static vertex table `VERTICES` (vertex.rs lines 16-37):
five pentagon vertices in counter-clockwise order. -/
def VERTICES : List Vertex :=
  [ { position := (-0.0868241, 0.49240386, 0.0),
      tex_coords := (0.4131759, 0.00759614) },
    { position := (-0.49513406, 0.06958647, 0.0),
      tex_coords := (0.0048659444, 0.43041354) },
    { position := (-0.21918549, -0.44939706, 0.0),
      tex_coords := (0.28081453, 0.949397) },
    { position := (0.35966998, -0.3473291, 0.0),
      tex_coords := (0.85967, 0.84732914) },
    { position := (0.44147372, 0.2347359, 0.0),
      tex_coords := (0.9414737, 0.2652641) } ]

/-- The static 16-bit index table `INDICES` (vertex.rs line 40);
every value fits in a u16 so plain `Nat` is faithful. -/
def INDICES : List Nat := [0, 1, 4, 1, 2, 4, 2, 3, 4]

/-- `Vertex::desc()` (vertex.rs lines 43-71): stride 20 bytes
(`size_of::<Vertex>()` = 3*4 + 2*4), per-vertex stepping, position at
offset 0 / location 0 and tex_coords at offset 12 / location 1. -/
def Vertex.desc : VertexBufferLayout :=
  { array_stride := 20,
    step_mode := VertexStepMode.Vertex,
    attributes :=
      [ { offset := 0, shader_location := 0, format := VertexFormat.Float32x3 },
        { offset := 12, shader_location := 1, format := VertexFormat.Float32x2 } ] }

/-- The pipeline-descriptor fields of `wgpu::RenderPipeline` that the
claims are about: the declared vertex-buffer layouts and the fragment
target format. -/
structure RenderPipeline where
  buffers : List VertexBufferLayout
  target_format : TextureFormat
  deriving DecidableEq, Repr

/-- The first pipeline built in `State::new` (state.rs lines 205-262):
its vertex stage consumes one external buffer laid out per
`Vertex::desc()`. -/
def render_pipeline_triangle_interpol_buffer (fmt : TextureFormat) : RenderPipeline :=
  { buffers := [Vertex.desc], target_format := fmt }

/-- The second pipeline built in `State::new` (state.rs lines 273-331):
its vertex stage declares zero external vertex buffers (`buffers: &[]`,
line 282); geometry attributes are derived in the shader. -/
def render_pipeline_triangle_interpol (fmt : TextureFormat) : RenderPipeline :=
  { buffers := [], target_format := fmt }

/-- `Camera` (the camera module is not under src/).
Modelled from the spec: the camera holds data derived from the surface
configuration (the aspect ratio, i.e. width and height); its uniform is
a view-projection matrix computed from that data.  The claims about
`State::resize` depend only on whether resize touches this field at
all, not on the matrix itself. -/
structure Camera where
  config_width : Nat
  config_height : Nat
  deriving DecidableEq, Repr

/-- `Camera::new(&config)`. Modelled from the spec: the camera captures
the configuration's aspect ratio at construction. -/
def Camera.new (config : SurfaceConfiguration) : Camera :=
  { config_width := config.width, config_height := config.height }

/-- The fields of `State` (state.rs lines 14-34) that the claims
observe, plus instrumentation for the effects the claims count:
`swapchain` mirrors what the surface was last configured with,
`reconfigure_count` counts `surface.configure` calls,
`camera_uniform_writes` counts `queue.write_buffer` calls targeting the
camera buffer, and `camera_buffer_generation` counts replacements of
the camera buffer object after its creation. -/
structure State where
  config : SurfaceConfiguration
  size : PhysicalSize
  render_pipeline_triangle_interpol_buffer : RenderPipeline
  render_pipeline_triangle_interpol : RenderPipeline
  use_color : Bool
  num_indices : Nat
  camera : Camera
  swapchain : Option SurfaceConfiguration
  reconfigure_count : Nat
  camera_uniform_writes : Nat
  camera_buffer_generation : Nat
  deriving DecidableEq, Repr

/-- The surface-format selection in `State::new` (state.rs lines
88-93): the first capability format flagged sRGB, else the first format
(`formats[0]`, which requires a non-empty list). -/
def surface_format (caps : SurfaceCapabilities) (h : caps.formats ≠ []) :
    TextureFormat :=
  (caps.formats.find? (fun f => f.is_srgb)).getD (caps.formats.head h)

/-- The pair of pipelines built in `State::new`, both targeting the
chosen surface format (first the buffered/textured one, then the
procedural one). -/
def build_pipelines (fmt : TextureFormat) : RenderPipeline × RenderPipeline :=
  (render_pipeline_triangle_interpol_buffer fmt,
   render_pipeline_triangle_interpol fmt)

/-- `State::new` (state.rs lines 37-365), restricted to the observable
fields: builds the configuration from the window size and surface
capabilities, configures the surface once (line 106), creates the two
pipelines, the camera and its buffer (one buffer-init, zero
`write_buffer` calls), sets `use_color: false` and
`num_indices = INDICES.len()`. -/
def State.new (size : PhysicalSize) (caps : SurfaceCapabilities)
    (hf : caps.formats ≠ []) (hp : caps.present_modes ≠ [])
    (ha : caps.alpha_modes ≠ []) : State :=
  let fmt := surface_format caps hf
  let config : SurfaceConfiguration :=
    { usage := TextureUsages.RENDER_ATTACHMENT,
      format := fmt,
      width := size.width,
      height := size.height,
      present_mode := caps.present_modes.head hp,
      alpha_mode := caps.alpha_modes.head ha,
      desired_maximum_frame_latency := 2 }
  let rp_buffer := (build_pipelines fmt).1
  let rp_interpol := (build_pipelines fmt).2
  { config := config,
    size := size,
    render_pipeline_triangle_interpol_buffer := rp_buffer,
    render_pipeline_triangle_interpol := rp_interpol,
    use_color := false,
    num_indices := INDICES.length,
    camera := Camera.new config,
    swapchain := some config,
    reconfigure_count := 1,
    camera_uniform_writes := 0,
    camera_buffer_generation := 0 }

/-- `State::resize` (state.rs lines 371-378): when both dimensions are
positive, store the new size, update the configuration's width and
height, and reconfigure the surface; otherwise do nothing. -/
def State.resize (s : State) (new_size : PhysicalSize) : State :=
  if new_size.width > 0 && new_size.height > 0 then
    let config :=
      { s.config with width := new_size.width, height := new_size.height }
    { s with
        size := new_size,
        config := config,
        swapchain := some config,
        reconfigure_count := s.reconfigure_count + 1 }
  else
    s

/-- `winit::event::ElementState`. -/
inductive ElementState where
  | Pressed
  | Released
  deriving DecidableEq, Repr

/-- `winit::keyboard::KeyCode` (the code the handler matches on plus
representatives of the others). -/
inductive KeyCode where
  | Space
  | Escape
  | KeyA
  | Enter
  deriving DecidableEq, Repr

/-- `winit::keyboard::PhysicalKey`. -/
inductive PhysicalKey where
  | Code (code : KeyCode)
  | Unidentified
  deriving DecidableEq, Repr

/-- `winit::event::KeyEvent`, restricted to the fields the handler can
observe: `state`, `physical_key`, and the auto-repeat flag (winit's
`repeat` field; repeat events are delivered with `state = Pressed`). -/
structure KeyEvent where
  state : ElementState
  physical_key : PhysicalKey
  repeat_flag : Bool
  deriving DecidableEq, Repr

/-- `winit::event::WindowEvent`, restricted to the variants the program
can receive (others behave like any non-matching variant). -/
inductive WindowEvent where
  | KeyboardInput (event : KeyEvent)
  | Resized (size : PhysicalSize)
  | CloseRequested
  | RedrawRequested
  deriving DecidableEq, Repr

/-- `State::input` (state.rs lines 381-399): a keyboard event whose
physical key is Space is consumed (returns true) and flips `use_color`
exactly when the element state is Released; every other event returns
false and changes nothing. -/
def State.input (s : State) (event : WindowEvent) : State × Bool :=
  match event with
  | WindowEvent.KeyboardInput
      { state := st, physical_key := PhysicalKey.Code KeyCode.Space, .. } =>
    let s :=
      if st = ElementState.Released then
        { s with use_color := !s.use_color }
      else
        s
    (s, true)
  | _ => (s, false)

/-- Whether an event matches the pattern of the Space-key arm of
`State::input` (a keyboard event carrying `PhysicalKey::Code(Space)`). -/
def WindowEvent.is_space_key : WindowEvent → Bool
  | WindowEvent.KeyboardInput { physical_key := PhysicalKey.Code KeyCode.Space, .. } =>
    true
  | _ => false

/-- A Space release event (the toggle's release edge). -/
def releaseSpace : WindowEvent :=
  WindowEvent.KeyboardInput
    { state := ElementState.Released,
      physical_key := PhysicalKey.Code KeyCode.Space,
      repeat_flag := false }

/-- `n` consecutive Space release edges fed through `State::input`. -/
def applyReleases (s : State) : Nat → State
  | 0 => s
  | n + 1 => ((applyReleases s n).input releaseSpace).1

/-- `wgpu::SurfaceError`, the error type of
`surface.get_current_texture()` and of `State::render`. -/
inductive SurfaceError where
  | Timeout
  | Outdated
  | Lost
  | OutOfMemory
  | Other
  deriving DecidableEq, Repr

/-- The recoverable surface conditions: lost, outdated, or an acquire
timeout. -/
def SurfaceError.recoverable : SurfaceError → Bool
  | .Lost => true
  | .Outdated => true
  | .Timeout => true
  | _ => false

/-- Identities of the GPU buffers `State` owns. -/
inductive BufferId where
  | vertex_buffer
  | index_buffer
  | camera_buffer
  deriving DecidableEq, Repr

/-- Identities of the bind groups `State` owns. -/
inductive BindGroupId where
  | diffuse_bind_group
  | camera_bind_group
  deriving DecidableEq, Repr

/-- `wgpu::IndexFormat`. -/
inductive IndexFormat where
  | Uint16
  | Uint32
  deriving DecidableEq, Repr

/-- The render-pass commands `State::render` can record.  Ranges are
given as (start, end) pairs, mirroring Rust's `a..b`. -/
inductive RenderCommand where
  | setPipeline (p : RenderPipeline)
  | setBindGroup (slot : Nat) (group : BindGroupId)
  | setVertexBuffer (slot : Nat) (buffer : BufferId)
  | setIndexBuffer (buffer : BufferId) (format : IndexFormat)
  | drawIndexed (indices_start indices_end : Nat) (base_vertex : Int)
      (instances_start instances_end : Nat)
  | draw (vertices_start vertices_end : Nat)
      (instances_start instances_end : Nat)
  deriving DecidableEq, Repr

/-- Whether a command is a draw call (indexed or not). -/
def RenderCommand.is_draw_call : RenderCommand → Bool
  | .drawIndexed .. => true
  | .draw .. => true
  | _ => false

/-- Whether a command is a non-indexed draw. -/
def RenderCommand.is_plain_draw : RenderCommand → Bool
  | .draw .. => true
  | _ => false

/-- The observable outcome of one `State::render` call: the render-pass
commands recorded, how many command buffers were submitted to the
queue, how many presents occurred, and the returned result. -/
structure FrameTrace where
  commands : List RenderCommand
  submissions : Nat
  presents : Nat
  result : Except SurfaceError Unit
  deriving Repr

/-- `State::render` (state.rs lines 403-484).  The acquire outcome of
`surface.get_current_texture()` is an environment input.  On an acquire
error the `?` operator returns it before the command encoder exists, so
nothing is recorded, submitted or presented.  Otherwise one render pass
is recorded: select the pipeline by `use_color` (lines 460-464), bind
the diffuse and camera bind groups at slots 0 and 1, bind the vertex
buffer at slot 0 and the 16-bit index buffer, issue one indexed draw of
`0..num_indices` with base vertex 0 and instance range `0..1`; then one
submit and one present.  `self` is not mutated. -/
def State.render (s : State) (acquire : Except SurfaceError Unit) :
    State × FrameTrace :=
  match acquire with
  | .error e =>
    (s, { commands := [], submissions := 0, presents := 0, result := .error e })
  | .ok _ =>
    let pipeline :=
      if s.use_color = true then
        s.render_pipeline_triangle_interpol
      else
        s.render_pipeline_triangle_interpol_buffer
    let pass : List RenderCommand :=
      [ RenderCommand.setPipeline pipeline,
        RenderCommand.setBindGroup 0 BindGroupId.diffuse_bind_group,
        RenderCommand.setBindGroup 1 BindGroupId.camera_bind_group,
        RenderCommand.setVertexBuffer 0 BufferId.vertex_buffer,
        RenderCommand.setIndexBuffer BufferId.index_buffer IndexFormat.Uint16,
        RenderCommand.drawIndexed 0 s.num_indices 0 0 1 ]
    (s, { commands := pass, submissions := 1, presents := 1, result := .ok () })

/-- The states reachable through the public API: construction followed
by any interleaving of `resize`, `input` and `render` calls. -/
inductive Reachable : State → Prop where
  | new (size : PhysicalSize) (caps : SurfaceCapabilities)
      (hf : caps.formats ≠ []) (hp : caps.present_modes ≠ [])
      (ha : caps.alpha_modes ≠ []) :
      Reachable (State.new size caps hf hp ha)
  | resize {s : State} (new_size : PhysicalSize) :
      Reachable s → Reachable (s.resize new_size)
  | input {s : State} (event : WindowEvent) :
      Reachable s → Reachable (s.input event).1
  | render {s : State} (acquire : Except SurfaceError Unit) :
      Reachable s → Reachable (s.render acquire).1

/-- Concrete surface capabilities used to instantiate theorems: one
non-sRGB format followed by an sRGB one. -/
def sampleCaps : SurfaceCapabilities :=
  { formats := [TextureFormat.Bgra8Unorm, TextureFormat.Bgra8UnormSrgb],
    present_modes := [PresentMode.Fifo],
    alpha_modes := [CompositeAlphaMode.Opaque] }

/-- A concrete freshly constructed state (800×600 window). -/
def sampleState : State :=
  State.new ⟨800, 600⟩ sampleCaps (by decide) (by decide) (by decide)

/-- The concrete state after one Space release edge: the procedural
variant (Variant B) is selected. -/
def sampleStateB : State :=
  (sampleState.input releaseSpace).1

/- ### Helper lemmas -/

lemma resize_preserves_fixed (s : State) (ns : PhysicalSize) :
    (s.resize ns).num_indices = s.num_indices ∧
    (s.resize ns).use_color = s.use_color ∧
    (s.resize ns).camera = s.camera ∧
    (s.resize ns).camera_uniform_writes = s.camera_uniform_writes ∧
    (s.resize ns).camera_buffer_generation = s.camera_buffer_generation ∧
    (s.resize ns).config.format = s.config.format ∧
    (s.resize ns).config.present_mode = s.config.present_mode ∧
    (s.resize ns).config.usage = s.config.usage ∧
    (s.resize ns).config.alpha_mode = s.config.alpha_mode ∧
    (s.resize ns).render_pipeline_triangle_interpol =
      s.render_pipeline_triangle_interpol ∧
    (s.resize ns).render_pipeline_triangle_interpol_buffer =
      s.render_pipeline_triangle_interpol_buffer := by
  unfold State.resize
  split <;> exact ⟨rfl, rfl, rfl, rfl, rfl, rfl, rfl, rfl, rfl, rfl, rfl⟩

lemma input_fst_cases (s : State) (e : WindowEvent) :
    (s.input e).1 = s ∨ (s.input e).1 = { s with use_color := !s.use_color } := by
  cases e with
  | KeyboardInput ev =>
    obtain ⟨st, pk, rep⟩ := ev
    cases pk with
    | Code code =>
      cases code with
      | Space =>
        cases st with
        | Pressed => exact Or.inl rfl
        | Released => exact Or.inr rfl
      | Escape => exact Or.inl rfl
      | KeyA => exact Or.inl rfl
      | Enter => exact Or.inl rfl
    | Unidentified => exact Or.inl rfl
  | Resized size => exact Or.inl rfl
  | CloseRequested => exact Or.inl rfl
  | RedrawRequested => exact Or.inl rfl

lemma render_fst (s : State) (acquire : Except SurfaceError Unit) :
    (s.render acquire).1 = s := by
  cases acquire <;> rfl

lemma reachable_invariants {s : State} (hs : Reachable s) :
    s.num_indices = INDICES.length ∧
    s.render_pipeline_triangle_interpol.buffers = [] ∧
    s.render_pipeline_triangle_interpol_buffer.buffers = [Vertex.desc] ∧
    s.camera_uniform_writes = 0 ∧
    s.camera_buffer_generation = 0 := by
  induction hs with
  | new size caps hf hp ha => exact ⟨rfl, rfl, rfl, rfl, rfl⟩
  | resize ns hs ih =>
    obtain ⟨h1, h2, h3, h4, h5⟩ := ih
    obtain ⟨p1, -, -, p4, p5, -, -, -, -, p10, p11⟩ :=
      resize_preserves_fixed _ ns
    exact ⟨p1.trans h1, by rw [p10]; exact h2, by rw [p11]; exact h3,
      p4.trans h4, p5.trans h5⟩
  | input e hs ih =>
    rcases input_fst_cases _ e with h | h <;> rw [h] <;> exact ih
  | render acquire hs ih =>
    rw [render_fst]; exact ih

/- ### Claim theorems -/

/-- C1: for every resize request (w,h) with w=0 or h=0, `State::resize`
is a complete no-op: the stored size, the stored surface configuration
(width, height, format, present mode), the mirrored swapchain
configuration and the reconfigure count are all unchanged (the whole
state is equal), so no reconfigure call is made. -/
theorem resize_zero_dimension_noop (s : State) (w h : Nat)
    (hz : w = 0 ∨ h = 0) : s.resize ⟨w, h⟩ = s := by
  unfold State.resize
  rcases hz with rfl | rfl <;> simp

theorem resize_zero_dimension_noop_witness :
    ((0 : Nat) = 0 ∨ (600 : Nat) = 0) ∧ sampleState.resize ⟨0, 600⟩ = sampleState :=
  ⟨Or.inl rfl, resize_zero_dimension_noop sampleState 0 600 (Or.inl rfl)⟩

/-- C2: for every resize request (w,h) with w>0 and h>0, `State::resize`
sets the stored size and the configuration's width/height to exactly
(w,h), increments the reconfigure count by exactly one (configuring the
surface with the updated configuration), and leaves format, present
mode, usage and alpha mode unchanged. -/
theorem resize_valid_updates (s : State) (w h : Nat)
    (hw : w > 0) (hh : h > 0) :
    (s.resize ⟨w, h⟩).size = ⟨w, h⟩ ∧
    (s.resize ⟨w, h⟩).config.width = w ∧
    (s.resize ⟨w, h⟩).config.height = h ∧
    (s.resize ⟨w, h⟩).config.format = s.config.format ∧
    (s.resize ⟨w, h⟩).config.present_mode = s.config.present_mode ∧
    (s.resize ⟨w, h⟩).config.usage = s.config.usage ∧
    (s.resize ⟨w, h⟩).config.alpha_mode = s.config.alpha_mode ∧
    (s.resize ⟨w, h⟩).reconfigure_count = s.reconfigure_count + 1 ∧
    (s.resize ⟨w, h⟩).swapchain = some (s.resize ⟨w, h⟩).config := by
  unfold State.resize
  simp [hw, hh]

theorem resize_valid_updates_witness :
    (1024 : Nat) > 0 ∧ (768 : Nat) > 0 ∧
    ((sampleState.resize ⟨1024, 768⟩).size = ⟨1024, 768⟩ ∧
     (sampleState.resize ⟨1024, 768⟩).config.width = 1024 ∧
     (sampleState.resize ⟨1024, 768⟩).config.height = 768 ∧
     (sampleState.resize ⟨1024, 768⟩).config.format = sampleState.config.format ∧
     (sampleState.resize ⟨1024, 768⟩).config.present_mode =
       sampleState.config.present_mode ∧
     (sampleState.resize ⟨1024, 768⟩).config.usage = sampleState.config.usage ∧
     (sampleState.resize ⟨1024, 768⟩).config.alpha_mode =
       sampleState.config.alpha_mode ∧
     (sampleState.resize ⟨1024, 768⟩).reconfigure_count =
       sampleState.reconfigure_count + 1 ∧
     (sampleState.resize ⟨1024, 768⟩).swapchain =
       some (sampleState.resize ⟨1024, 768⟩).config) :=
  ⟨by decide, by decide,
   resize_valid_updates sampleState 1024 768 (by decide) (by decide)⟩

/-- C3: `State::input` flips `use_color` only on a release edge of the
Space key: a Space press (also with the auto-repeat flag set, winit's
encoding of repeat-while-held) returns true and leaves the state
unchanged; a Space release returns true and flips `use_color` exactly
once; every event not matching the Space-key pattern returns false and
leaves the state unchanged. -/
theorem input_release_edge_toggle (s : State) (rep : Bool) :
    (s.input (WindowEvent.KeyboardInput
        { state := ElementState.Pressed,
          physical_key := PhysicalKey.Code KeyCode.Space,
          repeat_flag := rep }) = (s, true)) ∧
    (s.input (WindowEvent.KeyboardInput
        { state := ElementState.Released,
          physical_key := PhysicalKey.Code KeyCode.Space,
          repeat_flag := rep }) = ({ s with use_color := !s.use_color }, true)) ∧
    (∀ e : WindowEvent, e.is_space_key = false → s.input e = (s, false)) := by
  refine ⟨rfl, rfl, fun e he => ?_⟩
  cases e with
  | KeyboardInput ev =>
    obtain ⟨st, pk, r⟩ := ev
    cases pk with
    | Code code =>
      cases code with
      | Space => simp [WindowEvent.is_space_key] at he
      | Escape => rfl
      | KeyA => rfl
      | Enter => rfl
    | Unidentified => rfl
  | Resized size => rfl
  | CloseRequested => rfl
  | RedrawRequested => rfl

theorem input_release_edge_toggle_witness :
    (sampleState.input (WindowEvent.KeyboardInput
        { state := ElementState.Pressed,
          physical_key := PhysicalKey.Code KeyCode.Space,
          repeat_flag := true }) = (sampleState, true)) ∧
    (sampleState.input (WindowEvent.KeyboardInput
        { state := ElementState.Released,
          physical_key := PhysicalKey.Code KeyCode.Space,
          repeat_flag := true }) =
      ({ sampleState with use_color := !sampleState.use_color }, true)) ∧
    WindowEvent.CloseRequested.is_space_key = false ∧
    sampleState.input WindowEvent.CloseRequested = (sampleState, false) :=
  ⟨(input_release_edge_toggle sampleState true).1,
   (input_release_edge_toggle sampleState true).2.1,
   by decide,
   (input_release_edge_toggle sampleState true).2.2
     WindowEvent.CloseRequested (by decide)⟩

lemma applyReleases_use_color (s : State) (n : Nat) :
    (applyReleases s n).use_color = Bool.xor (decide (n % 2 = 1)) s.use_color := by
  induction n with
  | zero => simp [applyReleases]
  | succ n ih =>
    have hstep : (applyReleases s (n + 1)).use_color
        = !(applyReleases s n).use_color := rfl
    rcases Nat.mod_two_eq_zero_or_one n with h | h <;>
      simp [hstep, ih, h, Nat.succ_mod_two_eq_one_iff, Nat.succ_mod_two_eq_zero_iff]

/-- C4: starting from any state, an even number of Space release edges
leaves `use_color` at its starting value and an odd number yields the
negated value; the freshly constructed state has `use_color = false`,
which selects the buffered/textured pipeline (Variant A). -/
theorem toggle_parity (s : State) (n : Nat) :
    (n % 2 = 0 → (applyReleases s n).use_color = s.use_color) ∧
    (n % 2 = 1 → (applyReleases s n).use_color = !s.use_color) ∧
    (∀ (size : PhysicalSize) (caps : SurfaceCapabilities)
        (hf : caps.formats ≠ []) (hp : caps.present_modes ≠ [])
        (ha : caps.alpha_modes ≠ []),
      (State.new size caps hf hp ha).use_color = false) := by
  refine ⟨fun h => ?_, fun h => ?_, fun size caps hf hp ha => rfl⟩ <;>
    simp [applyReleases_use_color, h]

theorem toggle_parity_witness :
    ((4 : Nat) % 2 = 0 → (applyReleases sampleState 4).use_color
      = sampleState.use_color) ∧
    ((4 : Nat) % 2 = 1 → (applyReleases sampleState 4).use_color
      = !sampleState.use_color) ∧
    (∀ (size : PhysicalSize) (caps : SurfaceCapabilities)
        (hf : caps.formats ≠ []) (hp : caps.present_modes ≠ [])
        (ha : caps.alpha_modes ≠ []),
      (State.new size caps hf hp ha).use_color = false) :=
  toggle_parity sampleState 4

/-- C5: every successful `State::render` call records exactly one draw
command: an indexed draw over the full static index range (`INDICES`
has 9 entries, matching the 5-vertex pentagon table) with base vertex 0
and instance range 0..1 (instance count 1), whichever pipeline variant
`use_color` selects. -/
theorem render_single_full_draw (s : State) (hs : Reachable s)
    (acquire : Except SurfaceError Unit)
    (hok : (s.render acquire).2.result = .ok ()) :
    (s.render acquire).2.commands.filter RenderCommand.is_draw_call
      = [RenderCommand.drawIndexed 0 INDICES.length 0 0 1] ∧
    INDICES.length = 9 := by
  obtain ⟨hnum, -, -, -, -⟩ := reachable_invariants hs
  cases acquire with
  | error e => simp [State.render] at hok
  | ok u =>
    refine ⟨?_, rfl⟩
    simp [State.render, RenderCommand.is_draw_call, List.filter, hnum]

theorem render_single_full_draw_witness :
    (sampleState.render (.ok ())).2.result = .ok () ∧
    ((sampleState.render (.ok ())).2.commands.filter RenderCommand.is_draw_call
       = [RenderCommand.drawIndexed 0 INDICES.length 0 0 1] ∧
     INDICES.length = 9) :=
  ⟨rfl,
   render_single_full_draw sampleState
     (Reachable.new ⟨800, 600⟩ sampleCaps (by decide) (by decide) (by decide))
     (.ok ()) rfl⟩

/-- C6 counterexample: in the concrete reachable state with Variant B
(the procedural pipeline) selected, a successful render still records a
`set_vertex_buffer` at slot 0 and records no non-indexed draw at all
(the single draw is indexed), contradicting the claim that the vertex
buffer is bound for Variant A only and that Variant B issues one
non-indexed 3-vertex draw. -/
theorem render_variantB_counterexample :
    sampleStateB.use_color = true ∧
    (sampleStateB.render (.ok ())).2.result = .ok () ∧
    RenderCommand.setVertexBuffer 0 BufferId.vertex_buffer
      ∈ (sampleStateB.render (.ok ())).2.commands ∧
    (sampleStateB.render (.ok ())).2.commands.filter
      RenderCommand.is_plain_draw = [] := by
  refine ⟨rfl, rfl, ?_, rfl⟩
  decide

/-- C6 amended: on every successful render with Variant B selected, the
pipeline set for the pass is the procedural one, whose descriptor
declares zero external vertex-buffer layouts (so the shader consumes no
vertex buffer); nevertheless the pass still binds the vertex buffer at
slot 0 unconditionally, records no non-indexed draw, and issues the
same single indexed draw over the full 9-entry index range as
Variant A. -/
theorem render_variantB_behavior (s : State) (hs : Reachable s)
    (hB : s.use_color = true) (acquire : Except SurfaceError Unit)
    (hok : (s.render acquire).2.result = .ok ()) :
    RenderCommand.setPipeline s.render_pipeline_triangle_interpol
      ∈ (s.render acquire).2.commands ∧
    s.render_pipeline_triangle_interpol.buffers = [] ∧
    RenderCommand.setVertexBuffer 0 BufferId.vertex_buffer
      ∈ (s.render acquire).2.commands ∧
    (s.render acquire).2.commands.filter RenderCommand.is_plain_draw = [] ∧
    (s.render acquire).2.commands.filter RenderCommand.is_draw_call
      = [RenderCommand.drawIndexed 0 INDICES.length 0 0 1] := by
  obtain ⟨hnum, hbuf, -, -, -⟩ := reachable_invariants hs
  cases acquire with
  | error e => simp [State.render] at hok
  | ok u =>
    refine ⟨?_, hbuf, ?_, ?_, ?_⟩
    · simp [State.render, hB]
    · simp [State.render]
    · simp [State.render, RenderCommand.is_plain_draw, List.filter]
    · simp [State.render, RenderCommand.is_draw_call, List.filter, hnum]

theorem render_variantB_behavior_witness :
    sampleStateB.use_color = true ∧
    (sampleStateB.render (.ok ())).2.result = .ok () ∧
    (RenderCommand.setPipeline sampleStateB.render_pipeline_triangle_interpol
       ∈ (sampleStateB.render (.ok ())).2.commands ∧
     sampleStateB.render_pipeline_triangle_interpol.buffers = [] ∧
     RenderCommand.setVertexBuffer 0 BufferId.vertex_buffer
       ∈ (sampleStateB.render (.ok ())).2.commands ∧
     (sampleStateB.render (.ok ())).2.commands.filter
       RenderCommand.is_plain_draw = [] ∧
     (sampleStateB.render (.ok ())).2.commands.filter
       RenderCommand.is_draw_call
       = [RenderCommand.drawIndexed 0 INDICES.length 0 0 1]) :=
  ⟨rfl, rfl,
   render_variantB_behavior sampleStateB
     (Reachable.input releaseSpace
       (Reachable.new ⟨800, 600⟩ sampleCaps (by decide) (by decide) (by decide)))
     rfl (.ok ()) rfl⟩

/-- C7: when acquiring the next surface texture fails with a
recoverable condition (lost, outdated, or timeout), `State::render`
returns that condition as a typed error, records no render-pass
command, submits nothing to the queue, presents nothing, and leaves the
renderer state unchanged. -/
theorem render_acquire_error_atomic (s : State) (e : SurfaceError)
    (he : e.recoverable = true) :
    (s.render (.error e)).1 = s ∧
    (s.render (.error e)).2.result = .error e ∧
    (s.render (.error e)).2.commands = [] ∧
    (s.render (.error e)).2.submissions = 0 ∧
    (s.render (.error e)).2.presents = 0 :=
  ⟨rfl, rfl, rfl, rfl, rfl⟩

theorem render_acquire_error_atomic_witness :
    SurfaceError.Lost.recoverable = true ∧
    ((sampleState.render (.error SurfaceError.Lost)).1 = sampleState ∧
     (sampleState.render (.error SurfaceError.Lost)).2.result
       = .error SurfaceError.Lost ∧
     (sampleState.render (.error SurfaceError.Lost)).2.commands = [] ∧
     (sampleState.render (.error SurfaceError.Lost)).2.submissions = 0 ∧
     (sampleState.render (.error SurfaceError.Lost)).2.presents = 0) :=
  ⟨by decide,
   render_acquire_error_atomic sampleState SurfaceError.Lost (by decide)⟩

/-- C8 counterexample: a valid resize of the concrete initial state
(800×600) to (1024, 768) updates the configuration but performs no
`write_buffer` call on the camera buffer (the write count stays 0) and
does not recompute the camera (it still carries the 800×600 aspect
data), contradicting the claim that every valid resize recomputes the
camera uniform and uploads it via a write call. -/
theorem resize_camera_counterexample :
    (1024 : Nat) > 0 ∧ (768 : Nat) > 0 ∧
    (sampleState.resize ⟨1024, 768⟩).config.width = 1024 ∧
    (sampleState.resize ⟨1024, 768⟩).config.height = 768 ∧
    (sampleState.resize ⟨1024, 768⟩).camera = sampleState.camera ∧
    (sampleState.resize ⟨1024, 768⟩).camera.config_width = 800 ∧
    sampleState.camera_uniform_writes = 0 ∧
    (sampleState.resize ⟨1024, 768⟩).camera_uniform_writes = 0 := by
  decide

/-- C8 amended: a resize with valid (non-zero) dimensions neither
recomputes the camera nor writes the camera uniform buffer — the
stored camera and the camera-buffer write count are unchanged, and in
every reachable state that write count is still 0 (the buffer contents
date from its creation); the camera uniform buffer object is indeed
never replaced (its replacement count is 0 in every reachable state and
resize does not change it). -/
theorem resize_leaves_camera_untouched (s : State) (w h : Nat)
    (hw : w > 0) (hh : h > 0) (hs : Reachable s) :
    (s.resize ⟨w, h⟩).camera = s.camera ∧
    (s.resize ⟨w, h⟩).camera_uniform_writes = s.camera_uniform_writes ∧
    (s.resize ⟨w, h⟩).camera_buffer_generation = s.camera_buffer_generation ∧
    s.camera_uniform_writes = 0 ∧
    s.camera_buffer_generation = 0 := by
  obtain ⟨-, -, hcam, hwr, hgen, -, -, -, -, -, -⟩ :=
    resize_preserves_fixed s ⟨w, h⟩
  obtain ⟨-, -, -, iw, ig⟩ := reachable_invariants hs
  exact ⟨hcam, hwr, hgen, iw, ig⟩

theorem resize_leaves_camera_untouched_witness :
    (1024 : Nat) > 0 ∧ (768 : Nat) > 0 ∧
    ((sampleState.resize ⟨1024, 768⟩).camera = sampleState.camera ∧
     (sampleState.resize ⟨1024, 768⟩).camera_uniform_writes
       = sampleState.camera_uniform_writes ∧
     (sampleState.resize ⟨1024, 768⟩).camera_buffer_generation
       = sampleState.camera_buffer_generation ∧
     sampleState.camera_uniform_writes = 0 ∧
     sampleState.camera_buffer_generation = 0) :=
  ⟨by decide, by decide,
   resize_leaves_camera_untouched sampleState 1024 768 (by decide) (by decide)
     (Reachable.new ⟨800, 600⟩ sampleCaps (by decide) (by decide) (by decide))⟩

lemma find?_first_srgb (l1 : List TextureFormat) (f : TextureFormat)
    (l2 : List TextureFormat) (hf : f.is_srgb = true)
    (h1 : ∀ g ∈ l1, g.is_srgb = false) :
    (l1 ++ f :: l2).find? (fun g => g.is_srgb) = some f := by
  induction l1 with
  | nil => simp [List.find?, hf]
  | cons a l ih =>
    have ha : a.is_srgb = false := h1 a (by simp)
    simpa [List.find?, ha] using ih (fun g hg => h1 g (by simp [hg]))

/-- C9: `State::new` stores `surface_format` as the configuration's
format; `surface_format` picks the first capability format flagged
sRGB when one exists (any decomposition `l1 ++ f :: l2` with `f` sRGB
and nothing sRGB before it yields `f`) and falls back to the first
format when none is sRGB; and `State::resize` never changes the stored
format, so the choice made at initialization persists. -/
theorem srgb_format_selection :
    (∀ (size : PhysicalSize) (caps : SurfaceCapabilities)
        (hf : caps.formats ≠ []) (hp : caps.present_modes ≠ [])
        (ha : caps.alpha_modes ≠ []),
      (State.new size caps hf hp ha).config.format = surface_format caps hf) ∧
    (∀ (caps : SurfaceCapabilities) (hf : caps.formats ≠ [])
        (l1 : List TextureFormat) (f : TextureFormat)
        (l2 : List TextureFormat),
      caps.formats = l1 ++ f :: l2 → f.is_srgb = true →
      (∀ g ∈ l1, g.is_srgb = false) → surface_format caps hf = f) ∧
    (∀ (caps : SurfaceCapabilities) (hf : caps.formats ≠ []),
      (∀ g ∈ caps.formats, g.is_srgb = false) →
      surface_format caps hf = caps.formats.head hf) ∧
    (∀ (s : State) (ns : PhysicalSize),
      (s.resize ns).config.format = s.config.format) := by
  refine ⟨fun size caps hf hp ha => rfl, ?_, ?_, ?_⟩
  · intro caps hf l1 f l2 hc hsrgb hbefore
    have hfind : caps.formats.find? (fun g => g.is_srgb) = some f := by
      rw [hc]; exact find?_first_srgb l1 f l2 hsrgb hbefore
    unfold surface_format
    rw [hfind]
    rfl
  · intro caps hf hnone
    unfold surface_format
    rw [List.find?_eq_none.mpr (fun g hg => by simp [hnone g hg])]
    rfl
  · intro s ns
    exact (resize_preserves_fixed s ns).2.2.2.2.2.1

theorem srgb_format_selection_witness :
    sampleState.config.format
      = surface_format sampleCaps (by decide) ∧
    sampleCaps.formats
      = [TextureFormat.Bgra8Unorm] ++ TextureFormat.Bgra8UnormSrgb :: [] ∧
    TextureFormat.Bgra8UnormSrgb.is_srgb = true ∧
    surface_format sampleCaps (by decide) = TextureFormat.Bgra8UnormSrgb ∧
    (sampleState.resize ⟨1024, 768⟩).config.format
      = sampleState.config.format :=
  ⟨srgb_format_selection.1 ⟨800, 600⟩ sampleCaps (by decide) (by decide)
     (by decide),
   by decide, by decide,
   srgb_format_selection.2.1 sampleCaps (by decide)
     [TextureFormat.Bgra8Unorm] TextureFormat.Bgra8UnormSrgb [] (by decide)
     (by decide) (by decide),
   srgb_format_selection.2.2.2 sampleState ⟨1024, 768⟩⟩

/-- C10: every entry of the static index table `INDICES` is strictly
below the length of the static vertex table `VERTICES` (all 9 indices
lie in 0..5), and the full index range the draw covers is exactly
`INDICES.length` in every reachable state, so the indexed draw never
references a vertex outside the uploaded vertex buffer. -/
theorem indices_within_vertices :
    (∀ i ∈ INDICES, i < VERTICES.length) ∧
    VERTICES.length = 5 ∧ INDICES.length = 9 ∧
    (∀ (s : State), Reachable s → s.num_indices = INDICES.length) := by
  refine ⟨?_, rfl, rfl, fun s hs => (reachable_invariants hs).1⟩
  decide

theorem indices_within_vertices_witness :
    (4 ∈ INDICES ∧ 4 < VERTICES.length) ∧
    (VERTICES.length = 5 ∧ INDICES.length = 9 ∧
     sampleState.num_indices = INDICES.length) :=
  ⟨⟨by decide, indices_within_vertices.1 4 (by decide)⟩,
   indices_within_vertices.2.1, indices_within_vertices.2.2.1,
   indices_within_vertices.2.2.2 sampleState
     (Reachable.new ⟨800, 600⟩ sampleCaps (by decide) (by decide) (by decide))⟩
